import Mathlib

/-!
Verification of the drone-plugin-kube reconciliation-and-settlement engine.

The Go sources are embedded shallowly:
* the Kubernetes client is replaced by explicit response parameters (the
  result of the one `Get` a probe issues, and the error results of the one
  `Create` or `Update` a reconciler issues);
* each reconciler returns, besides its error, the list of write calls it
  issued against the control plane, in order;
* the settlement watcher `waitUntilDeploymentSettled` is driven by an
  explicit schedule resolving its `select` race (timer firing vs. a watch
  event arriving), and its run records how many events it consumed and
  whether the watch subscription was ever stopped;
* the dispatch layer (`handleYamlConfig` and the apply loop of `Exec`) is
  driven by one oracle per already-split sub-document.
-/

/-- A Go `error` value as the kube code discriminates it: either a
`*kubeErrors.StatusError` carrying an HTTP status code (the only case the
type assertion `err.(*kubeErrors.StatusError)` succeeds on), or any other
error value. -/
inductive GoError where
  | statusErr (code : Nat)
  | otherErr (tag : Nat)
deriving DecidableEq, Repr

/-- A Kubernetes resource document: its metadata name plus an opaque
identity for the rest of the document (spec payload, server-assigned
`resourceVersion`, ...), enough to tell the caller's desired document from
the live document fetched by a probe. -/
structure Doc where
  name : String
  payload : Nat
deriving DecidableEq, Repr

/-- The control plane's response to the single `Get` a probe issues. -/
abbrev GetResult := Except GoError Doc

/-- A write call issued against the control plane, carrying the document
that was sent. -/
inductive WriteCall where
  | create (d : Doc)
  | update (d : Doc)
deriving DecidableEq, Repr

/-- Number of create calls in a trace. -/
def createCount (calls : List WriteCall) : Nat :=
  (calls.filter fun c => match c with | .create _ => true | .update _ => false).length

/-- Number of update calls in a trace. -/
def updateCount (calls : List WriteCall) : Nat :=
  (calls.filter fun c => match c with | .create _ => false | .update _ => true).length

/-- Result of one reconciler invocation: the write calls it issued, in
order, and the error it returned. -/
structure ReconcileResult where
  calls : List WriteCall
  err : Option GoError
deriving DecidableEq, Repr

/-- Go returns `(bool, error)` from the bool-style probes. -/
structure ExistsResult where
  found : Bool
  err : Option GoError
deriving DecidableEq, Repr

/-- Go returns `(doc pointer, bool, error)` from the doc-style probes;
the pointer is modelled as `Option Doc` (`none` = nil). -/
structure GetDocResult where
  doc : Option Doc
  found : Bool
  err : Option GoError
deriving DecidableEq, Repr

/-- `deploymentExists` (part_000 lines 38-49): `Get`, translate a
StatusError with code 404 (`http.StatusNotFound`) to `(false, nil)`,
propagate any other error, report `(true, nil)` on success. -/
def deploymentExists (getResp : GetResult) : ExistsResult :=
  match getResp with
  | .error err =>
    match err with
    | .statusErr code =>
      if code = 404 then ⟨false, none⟩ else ⟨false, some (GoError.statusErr code)⟩
    | .otherErr tag => ⟨false, some (GoError.otherErr tag)⟩
  | .ok _ => ⟨true, none⟩

/-- `CreateOrUpdateDeployment` (part_000 lines 22-35): probe; on probe
error return it; if found, `Update` with the caller's deployment; else
`Create` with the caller's deployment. -/
def CreateOrUpdateDeployment (getResp : GetResult) (updateErr createErr : Option GoError)
    (deployment : Doc) : ReconcileResult :=
  let probe := deploymentExists getResp
  match probe.err with
  | some e => ⟨[], some e⟩
  | none =>
    if probe.found then
      ⟨[WriteCall.update deployment], updateErr⟩
    else
      ⟨[WriteCall.create deployment], createErr⟩

/-- `getService` (part_000 lines 111-122): `Get`, translate 404 to
`(nil, false, nil)`, propagate any other error as `(nil, false, err)`,
return the live service as `(service, true, nil)` on success. -/
def getService (getResp : GetResult) : GetDocResult :=
  match getResp with
  | .error err =>
    match err with
    | .statusErr code =>
      if code = 404 then ⟨none, false, none⟩ else ⟨none, false, some (GoError.statusErr code)⟩
    | .otherErr tag => ⟨none, false, some (GoError.otherErr tag)⟩
  | .ok service => ⟨some service, true, none⟩

/-- `ApplyService` (part_000 lines 95-108): probe via `getService`; on
error return it; if it exists, `Update` with the live `existingService`
fetched by the probe (not the caller's document); else `Create` with the
caller's document. `getService` always supplies a live document when
`found` is true; the `getD` fallback covers only Go's unreachable
nil-pointer case. -/
def ApplyService (getResp : GetResult) (updateErr createErr : Option GoError)
    (service : Doc) : ReconcileResult :=
  let probe := getService getResp
  match probe.err with
  | some e => ⟨[], some e⟩
  | none =>
    if probe.found then
      ⟨[WriteCall.update (probe.doc.getD service)], updateErr⟩
    else
      ⟨[WriteCall.create service], createErr⟩

/-- `configMapExists` (part_000 lines 142-152): same shape as
`deploymentExists`. -/
def configMapExists (getResp : GetResult) : ExistsResult :=
  match getResp with
  | .error err =>
    match err with
    | .statusErr code =>
      if code = 404 then ⟨false, none⟩ else ⟨false, some (GoError.statusErr code)⟩
    | .otherErr tag => ⟨false, some (GoError.otherErr tag)⟩
  | .ok _ => ⟨true, none⟩

/-- `ApplyConfigMap` (part_000 lines 124-139): probe; on error return it;
if found, `Update` with the caller's configMap; else `Create` with it. -/
def ApplyConfigMap (getResp : GetResult) (updateErr createErr : Option GoError)
    (configMap : Doc) : ReconcileResult :=
  let probe := configMapExists getResp
  match probe.err with
  | some e => ⟨[], some e⟩
  | none =>
    if probe.found then
      ⟨[WriteCall.update configMap], updateErr⟩
    else
      ⟨[WriteCall.create configMap], createErr⟩

/-- `getIngress` (part_000 lines 169-180): same shape as `getService`. -/
def getIngress (getResp : GetResult) : GetDocResult :=
  match getResp with
  | .error err =>
    match err with
    | .statusErr code =>
      if code = 404 then ⟨none, false, none⟩ else ⟨none, false, some (GoError.statusErr code)⟩
    | .otherErr tag => ⟨none, false, some (GoError.otherErr tag)⟩
  | .ok ingress => ⟨some ingress, true, none⟩

/-- `ApplyIngress` (part_000 lines 154-167): probe via `getIngress`, the
fetched live document is discarded (`_`); on error return it; if it does
not exist, `Create` with the caller's document; else `Update` with the
caller's document. -/
def ApplyIngress (getResp : GetResult) (updateErr createErr : Option GoError)
    (ingress : Doc) : ReconcileResult :=
  let probe := getIngress getResp
  match probe.err with
  | some e => ⟨[], some e⟩
  | none =>
    if !probe.found then
      ⟨[WriteCall.create ingress], createErr⟩
    else
      ⟨[WriteCall.update ingress], updateErr⟩

/-- `getCronJob` (part_000 lines 197-208): same shape as `getService`. -/
def getCronJob (getResp : GetResult) : GetDocResult :=
  match getResp with
  | .error err =>
    match err with
    | .statusErr code =>
      if code = 404 then ⟨none, false, none⟩ else ⟨none, false, some (GoError.statusErr code)⟩
    | .otherErr tag => ⟨none, false, some (GoError.otherErr tag)⟩
  | .ok cronjob => ⟨some cronjob, true, none⟩

/-- `ApplyCronJob` (part_000 lines 182-195): probe via `getCronJob`, the
fetched live document is discarded (`_`); on error return it; if it does
not exist, `Create` with the caller's document; else `Update` with the
caller's document. -/
def ApplyCronJob (getResp : GetResult) (updateErr createErr : Option GoError)
    (cronjob : Doc) : ReconcileResult :=
  let probe := getCronJob getResp
  match probe.err with
  | some e => ⟨[], some e⟩
  | none =>
    if !probe.found then
      ⟨[WriteCall.create cronjob], createErr⟩
    else
      ⟨[WriteCall.update cronjob], updateErr⟩

/-- The control plane's not-found response: a `StatusError` with HTTP
code 404, the one response every probe translates to absent-without-error. -/
def notFoundResp : GetResult := Except.error (GoError.statusErr 404)

/-- C1: for every supported resource kind, when the existence probe
reports the resource absent (control plane answers 404) the reconciler
issues exactly one create call and zero update calls; when the probe
reports it present (the `Get` succeeds on a live document) it issues
exactly one update call and zero create calls; and no invocation, on any
control-plane response at all, issues both a create and an update. -/
theorem C1_reconcile_single_write (desired live : Doc) (ue ce : Option GoError) :
    (createCount (CreateOrUpdateDeployment notFoundResp ue ce desired).calls = 1
      ∧ updateCount (CreateOrUpdateDeployment notFoundResp ue ce desired).calls = 0
      ∧ createCount (CreateOrUpdateDeployment (Except.ok live) ue ce desired).calls = 0
      ∧ updateCount (CreateOrUpdateDeployment (Except.ok live) ue ce desired).calls = 1
      ∧ ∀ g : GetResult, createCount (CreateOrUpdateDeployment g ue ce desired).calls = 0
          ∨ updateCount (CreateOrUpdateDeployment g ue ce desired).calls = 0)
    ∧ (createCount (ApplyService notFoundResp ue ce desired).calls = 1
      ∧ updateCount (ApplyService notFoundResp ue ce desired).calls = 0
      ∧ createCount (ApplyService (Except.ok live) ue ce desired).calls = 0
      ∧ updateCount (ApplyService (Except.ok live) ue ce desired).calls = 1
      ∧ ∀ g : GetResult, createCount (ApplyService g ue ce desired).calls = 0
          ∨ updateCount (ApplyService g ue ce desired).calls = 0)
    ∧ (createCount (ApplyConfigMap notFoundResp ue ce desired).calls = 1
      ∧ updateCount (ApplyConfigMap notFoundResp ue ce desired).calls = 0
      ∧ createCount (ApplyConfigMap (Except.ok live) ue ce desired).calls = 0
      ∧ updateCount (ApplyConfigMap (Except.ok live) ue ce desired).calls = 1
      ∧ ∀ g : GetResult, createCount (ApplyConfigMap g ue ce desired).calls = 0
          ∨ updateCount (ApplyConfigMap g ue ce desired).calls = 0)
    ∧ (createCount (ApplyIngress notFoundResp ue ce desired).calls = 1
      ∧ updateCount (ApplyIngress notFoundResp ue ce desired).calls = 0
      ∧ createCount (ApplyIngress (Except.ok live) ue ce desired).calls = 0
      ∧ updateCount (ApplyIngress (Except.ok live) ue ce desired).calls = 1
      ∧ ∀ g : GetResult, createCount (ApplyIngress g ue ce desired).calls = 0
          ∨ updateCount (ApplyIngress g ue ce desired).calls = 0)
    ∧ (createCount (ApplyCronJob notFoundResp ue ce desired).calls = 1
      ∧ updateCount (ApplyCronJob notFoundResp ue ce desired).calls = 0
      ∧ createCount (ApplyCronJob (Except.ok live) ue ce desired).calls = 0
      ∧ updateCount (ApplyCronJob (Except.ok live) ue ce desired).calls = 1
      ∧ ∀ g : GetResult, createCount (ApplyCronJob g ue ce desired).calls = 0
          ∨ updateCount (ApplyCronJob g ue ce desired).calls = 0) := by
  refine ⟨⟨rfl, rfl, rfl, rfl, ?_⟩, ⟨rfl, rfl, rfl, rfl, ?_⟩, ⟨rfl, rfl, rfl, rfl, ?_⟩,
    ⟨rfl, rfl, rfl, rfl, ?_⟩, ⟨rfl, rfl, rfl, rfl, ?_⟩⟩ <;>
  · intro g
    rcases g with e | d
    · rcases e with c | t
      · by_cases h : c = 404 <;>
          simp [CreateOrUpdateDeployment, ApplyService, ApplyConfigMap, ApplyIngress,
            ApplyCronJob, deploymentExists, getService, configMapExists, getIngress,
            getCronJob, createCount, updateCount, h]
      · simp [CreateOrUpdateDeployment, ApplyService, ApplyConfigMap, ApplyIngress,
          ApplyCronJob, deploymentExists, getService, configMapExists, getIngress,
          getCronJob, createCount, updateCount]
    · simp [CreateOrUpdateDeployment, ApplyService, ApplyConfigMap, ApplyIngress,
        ApplyCronJob, deploymentExists, getService, configMapExists, getIngress,
        getCronJob, createCount, updateCount]

/-- C2: when the resource already exists (the probe's `Get` returned the
live document), `ApplyService` sends the live document fetched by the
existence check on its update call, while `CreateOrUpdateDeployment`,
`ApplyConfigMap`, `ApplyIngress` and `ApplyCronJob` send the caller's
desired document as-is. -/
theorem C2_update_document_choice (desired live : Doc) (ue ce : Option GoError) :
    (ApplyService (Except.ok live) ue ce desired).calls = [WriteCall.update live]
    ∧ (CreateOrUpdateDeployment (Except.ok live) ue ce desired).calls
        = [WriteCall.update desired]
    ∧ (ApplyConfigMap (Except.ok live) ue ce desired).calls = [WriteCall.update desired]
    ∧ (ApplyIngress (Except.ok live) ue ce desired).calls = [WriteCall.update desired]
    ∧ (ApplyCronJob (Except.ok live) ue ce desired).calls = [WriteCall.update desired] :=
  ⟨rfl, rfl, rfl, rfl, rfl⟩

/-- C3: every probe translates the control plane's not-found response to
(found = false, no document, nil error), and returns any other lookup
error unchanged with found = false and no document. -/
theorem C3_probe_not_found (e : GoError) (he : e ≠ GoError.statusErr 404) :
    deploymentExists notFoundResp = ⟨false, none⟩
    ∧ deploymentExists (Except.error e) = ⟨false, some e⟩
    ∧ getService notFoundResp = ⟨none, false, none⟩
    ∧ getService (Except.error e) = ⟨none, false, some e⟩
    ∧ configMapExists notFoundResp = ⟨false, none⟩
    ∧ configMapExists (Except.error e) = ⟨false, some e⟩
    ∧ getIngress notFoundResp = ⟨none, false, none⟩
    ∧ getIngress (Except.error e) = ⟨none, false, some e⟩
    ∧ getCronJob notFoundResp = ⟨none, false, none⟩
    ∧ getCronJob (Except.error e) = ⟨none, false, some e⟩ := by
  refine ⟨rfl, ?_, rfl, ?_, rfl, ?_, rfl, ?_, rfl, ?_⟩ <;>
  · rcases e with c | t
    · have hc : c ≠ 404 := fun h => he (by rw [h])
      simp [deploymentExists, getService, configMapExists, getIngress, getCronJob, hc]
    · simp [deploymentExists, getService, configMapExists, getIngress, getCronJob]

/-- Witness for C3 at the concrete non-404 error `GoError.otherErr 0`. -/
theorem C3_probe_not_found_witness :
    deploymentExists notFoundResp = ⟨false, none⟩
    ∧ deploymentExists (Except.error (GoError.otherErr 0))
        = ⟨false, some (GoError.otherErr 0)⟩
    ∧ getService notFoundResp = ⟨none, false, none⟩
    ∧ getService (Except.error (GoError.otherErr 0))
        = ⟨none, false, some (GoError.otherErr 0)⟩
    ∧ configMapExists notFoundResp = ⟨false, none⟩
    ∧ configMapExists (Except.error (GoError.otherErr 0))
        = ⟨false, some (GoError.otherErr 0)⟩
    ∧ getIngress notFoundResp = ⟨none, false, none⟩
    ∧ getIngress (Except.error (GoError.otherErr 0))
        = ⟨none, false, some (GoError.otherErr 0)⟩
    ∧ getCronJob notFoundResp = ⟨none, false, none⟩
    ∧ getCronJob (Except.error (GoError.otherErr 0))
        = ⟨none, false, some (GoError.otherErr 0)⟩ :=
  C3_probe_not_found (GoError.otherErr 0) (by decide)

/-- The constant `stateUpdated` (part_000 line 52). -/
def stateUpdated : String := "📦 Updated"

/-- The constant `stateFailed` (part_000 line 53). -/
def stateFailed : String := "⛔️ Failed"

/-- The runtime object carried by a watch event: a `*appV1.Deployment`
(the only type the loop's unchecked assertion accepts), identified here by
its `Status.UnavailableReplicas` field — the only field the loop reads —
or any other runtime object (a `*metav1.Status` error event, the nil
object of the zero-valued event a closed channel yields, ...). -/
inductive WatchObject where
  | deployment (unavailableReplicas : Int)
  | otherObject
deriving DecidableEq, Repr

/-- One resolution of the `select` race of the observing loop: either the
deadline timer fires first, or the watch channel delivers an event
first. -/
inductive LoopInput where
  | timerFires
  | event (obj : WatchObject)
deriving DecidableEq, Repr

/-- The error values `waitUntilDeploymentSettled` can return. -/
inductive WatchError where
  | watchDeployment (e : GoError)
  | getDeployment (e : GoError)
  | timedOut
deriving DecidableEq, Repr

/-- How a run of `waitUntilDeploymentSettled` ends: a normal return with
a state label and an optional error; a panic of the unchecked type
assertion `event.Object.(*appV1.Deployment)`; or, an artifact of driving
the loop with a finite schedule, the schedule ran out while the loop was
still observing. -/
inductive WatchExit where
  | ret (state : String) (err : Option WatchError)
  | panicked
  | observing
deriving DecidableEq, Repr

/-- A run of `waitUntilDeploymentSettled`: its exit, the number of events
it consumed from the watch channel, whether the watch subscription was
opened, and whether it was stopped (released) before the exit. -/
structure WatchRun where
  exit : WatchExit
  eventsConsumed : Nat
  watcherOpened : Bool
  watcherStopped : Bool
deriving DecidableEq, Repr

/-- The `for { select { ... } }` loop (part_000 lines 80-91), driven by a
schedule: on `timer.C` return `(stateFailed, timeout error)`; on an event,
assert the object is a Deployment (panic otherwise), return
`(stateUpdated, nil)` if its unavailable-replica count is zero, else keep
observing. Returns the exit and the number of events consumed. -/
def observeLoop (schedule : List LoopInput) (consumed : Nat) : WatchExit × Nat :=
  match schedule with
  | [] => (WatchExit.observing, consumed)
  | LoopInput.timerFires :: _ =>
    (WatchExit.ret stateFailed (some WatchError.timedOut), consumed)
  | LoopInput.event obj :: rest =>
    match obj with
    | WatchObject.deployment u =>
      if u = 0 then (WatchExit.ret stateUpdated none, consumed + 1)
      else observeLoop rest (consumed + 1)
    | WatchObject.otherObject => (WatchExit.panicked, consumed + 1)

/-- `waitUntilDeploymentSettled` (part_000 lines 57-92). `watchResp` is
the error result of opening the watch subscription; `getResp` is the
initial synchronous point-read, reduced to the `Status.UnavailableReplicas`
field it reads; `schedule` resolves the select race of each loop
iteration; the timer's expiry is the schedule's `timerFires` entry, so
`timeoutInSeconds` itself is not consulted. The source contains no
`watcher.Stop()` call on any path, so `watcherStopped` is false on every
exit. -/
def waitUntilDeploymentSettled (timeoutInSeconds : Int) (watchResp : Option GoError)
    (getResp : Except GoError Int) (schedule : List LoopInput) : WatchRun :=
  let _ := timeoutInSeconds
  match watchResp with
  | some err =>
    ⟨WatchExit.ret stateFailed (some (WatchError.watchDeployment err)), 0, false, false⟩
  | none =>
    match getResp with
    | Except.error err =>
      ⟨WatchExit.ret stateFailed (some (WatchError.getDeployment err)), 0, true, false⟩
    | Except.ok unavailable =>
      if unavailable = 0 then
        ⟨WatchExit.ret stateUpdated none, 0, true, false⟩
      else
        let r := observeLoop schedule 0
        ⟨r.1, r.2, true, false⟩

/-- C4: the watch subscription is never stopped: on every run of
`waitUntilDeploymentSettled`, whatever the watch-open result, the initial
point-read and the schedule, the function returns without having released
the subscription it may have opened — the source has no `watcher.Stop()`
(nor any `defer`) on any path, contradicting the spec's requirement that
the subscription be released on all terminal outcomes. -/
theorem C4_watcher_never_stopped (timeoutInSeconds : Int) (watchResp : Option GoError)
    (getResp : Except GoError Int) (schedule : List LoopInput) :
    (waitUntilDeploymentSettled timeoutInSeconds watchResp getResp schedule).watcherStopped
      = false := by
  rcases watchResp with _ | e
  · rcases getResp with e | u
    · rfl
    · by_cases h : u = 0 <;> simp [waitUntilDeploymentSettled, h]
  · rfl

/-- C5 counterexample: on a run where the deadline timer fires before any
zero-unavailable event, the watcher returns the label `stateFailed`
("⛔️ Failed") — the very same label it returns when the initial fetch
fails — together with the timeout error; there is no distinct TimedOut
label. -/
theorem C5_timeout_label_counterexample :
    (waitUntilDeploymentSettled 1 none (Except.ok 1) [LoopInput.timerFires]).exit
      = WatchExit.ret stateFailed (some WatchError.timedOut)
    ∧ (waitUntilDeploymentSettled 1 none (Except.error (GoError.otherErr 0)) []).exit
      = WatchExit.ret stateFailed
          (some (WatchError.getDeployment (GoError.otherErr 0))) :=
  ⟨rfl, rfl⟩

/-- C5 amended: on every run whose initial point-read is nonzero and whose
schedule delivers only nonzero-unavailable deployment events before the
timer fires, the watcher returns a non-nil error indicating an unexpected
timeout, but labelled with the same `stateFailed` used for fetch failures,
not a distinct TimedOut label. -/
theorem C5_timeout_returns_failed_label (u : Int) (hu : u ≠ 0) (pre : List Int)
    (hpre : ∀ x ∈ pre, x ≠ 0) :
    (waitUntilDeploymentSettled 1 none (Except.ok u)
        ((pre.map fun x => LoopInput.event (WatchObject.deployment x))
          ++ [LoopInput.timerFires])).exit
      = WatchExit.ret stateFailed (some WatchError.timedOut) := by
  have key : ∀ (l : List Int) (c : Nat), (∀ x ∈ l, x ≠ 0) →
      observeLoop ((l.map fun x => LoopInput.event (WatchObject.deployment x))
        ++ [LoopInput.timerFires]) c
        = (WatchExit.ret stateFailed (some WatchError.timedOut), c + l.length) := by
    intro l
    induction l with
    | nil => intro c _; simp [observeLoop]
    | cons x xs ih =>
      intro c hx
      have hx0 : x ≠ 0 := hx x (List.mem_cons_self x xs)
      have hxs : ∀ y ∈ xs, y ≠ 0 := fun y hy => hx y (List.mem_cons_of_mem x hy)
      have step :
          observeLoop ((List.map (fun y => LoopInput.event (WatchObject.deployment y))
              (x :: xs)) ++ [LoopInput.timerFires]) c
            = observeLoop ((List.map (fun y => LoopInput.event (WatchObject.deployment y))
                xs) ++ [LoopInput.timerFires]) (c + 1) := by
        simp [observeLoop, hx0]
      rw [step, ih (c + 1) hxs]
      simp only [Prod.mk.injEq, List.length_cons]
      exact ⟨trivial, by omega⟩
  simp only [waitUntilDeploymentSettled, if_neg hu]
  rw [key pre 0 hpre]

/-- Witness for C5's amended theorem: nonzero initial read 1, two nonzero
events 2 and 3, then the timer fires. -/
theorem C5_timeout_returns_failed_label_witness :
    (waitUntilDeploymentSettled 1 none (Except.ok 1)
        (([2, 3].map fun x => LoopInput.event (WatchObject.deployment x))
          ++ [LoopInput.timerFires])).exit
      = WatchExit.ret stateFailed (some WatchError.timedOut) :=
  C5_timeout_returns_failed_label 1 (by decide) [2, 3] (by decide)

/-- C6: when the initial synchronous point-read already reports zero
unavailable replicas, the watcher returns the settled label
`stateUpdated` with a nil error having consumed no event from the
subscription stream, whatever events the stream would deliver. -/
theorem C6_settled_on_initial_read (timeoutInSeconds : Int) (schedule : List LoopInput) :
    (waitUntilDeploymentSettled timeoutInSeconds none (Except.ok 0) schedule).exit
      = WatchExit.ret stateUpdated none
    ∧ (waitUntilDeploymentSettled timeoutInSeconds none (Except.ok 0) schedule).eventsConsumed
      = 0 :=
  ⟨rfl, rfl⟩

/-- C7: after a nonzero initial point-read, if the stream delivers a
nonzero-unavailable deployment event followed by a zero-unavailable one
before the timer fires, the watcher returns the settled label with a nil
error having consumed exactly two events. -/
theorem C7_two_events_to_settle (timeoutInSeconds u v : Int) (hu : u ≠ 0) (hv : v ≠ 0)
    (rest : List LoopInput) :
    (waitUntilDeploymentSettled timeoutInSeconds none (Except.ok u)
        (LoopInput.event (WatchObject.deployment v)
          :: LoopInput.event (WatchObject.deployment 0) :: rest)).exit
      = WatchExit.ret stateUpdated none
    ∧ (waitUntilDeploymentSettled timeoutInSeconds none (Except.ok u)
        (LoopInput.event (WatchObject.deployment v)
          :: LoopInput.event (WatchObject.deployment 0) :: rest)).eventsConsumed
      = 2 := by
  constructor <;> simp [waitUntilDeploymentSettled, observeLoop, hu, hv]

/-- Witness for C7 at initial read 1, first event 2, second event 0. -/
theorem C7_two_events_to_settle_witness :
    (waitUntilDeploymentSettled 120 none (Except.ok 1)
        (LoopInput.event (WatchObject.deployment 2)
          :: LoopInput.event (WatchObject.deployment 0) :: [])).exit
      = WatchExit.ret stateUpdated none
    ∧ (waitUntilDeploymentSettled 120 none (Except.ok 1)
        (LoopInput.event (WatchObject.deployment 2)
          :: LoopInput.event (WatchObject.deployment 0) :: [])).eventsConsumed
      = 2 :=
  C7_two_events_to_settle 120 1 2 (by decide) (by decide) []

/-- C10: the observing loop converts every received event object with an
unchecked type assertion: on every run whose schedule delivers only
deployment-carrying events the watcher never panics, while the concrete
run whose first event carries a non-deployment object panics instead of
returning a failed outcome with an error. -/
theorem C10_unchecked_assertion (timeoutInSeconds : Int) (watchResp : Option GoError)
    (getResp : Except GoError Int) (schedule : List LoopInput)
    (hall : ∀ obj, LoopInput.event obj ∈ schedule → ∃ u, obj = WatchObject.deployment u) :
    (waitUntilDeploymentSettled timeoutInSeconds watchResp getResp schedule).exit
      ≠ WatchExit.panicked
    ∧ (waitUntilDeploymentSettled 120 none (Except.ok 1)
        [LoopInput.event WatchObject.otherObject]).exit
      = WatchExit.panicked := by
  refine ⟨?_, rfl⟩
  have key : ∀ (l : List LoopInput) (c : Nat),
      (∀ obj, LoopInput.event obj ∈ l → ∃ u, obj = WatchObject.deployment u) →
      (observeLoop l c).1 ≠ WatchExit.panicked := by
    intro l
    induction l with
    | nil => intro c _; simp [observeLoop]
    | cons i rest ih =>
      intro c hl
      match i with
      | LoopInput.timerFires => simp [observeLoop]
      | LoopInput.event obj =>
        obtain ⟨u, hu⟩ := hl obj (List.mem_cons_self _ _)
        subst hu
        by_cases h0 : u = 0
        · simp [observeLoop, h0]
        · simp only [observeLoop, if_neg h0]
          exact ih (c + 1) fun o ho => hl o (List.mem_cons_of_mem _ ho)
  rcases watchResp with _ | e
  · rcases getResp with e | u
    · simp [waitUntilDeploymentSettled]
    · by_cases h : u = 0
      · simp [waitUntilDeploymentSettled, h]
      · simp only [waitUntilDeploymentSettled, if_neg h]
        exact key schedule 0 hall
  · simp [waitUntilDeploymentSettled]

/-- Witness for C10: a schedule whose only entry is the timer firing
(every event in it trivially carries a deployment). -/
theorem C10_unchecked_assertion_witness :
    (waitUntilDeploymentSettled 120 none (Except.ok 1) [LoopInput.timerFires]).exit
      ≠ WatchExit.panicked
    ∧ (waitUntilDeploymentSettled 120 none (Except.ok 1)
        [LoopInput.event WatchObject.otherObject]).exit
      = WatchExit.panicked := by
  refine C10_unchecked_assertion 120 none (Except.ok 1) [LoopInput.timerFires] ?_
  intro obj hobj
  simp only [List.mem_singleton] at hobj
  exact LoopInput.noConfusion hobj

/-- The five resource kinds the `switch` of `handleYamlConfig` dispatches
on (plugin.go lines 115-161), in source order. -/
inductive Kind where
  | deployment
  | configMap
  | service
  | ingress
  | cronJob
deriving DecidableEq, Repr

/-- A decoded Kubernetes object: its kind, its `ObjectMeta.Name`, its own
declared `ObjectMeta.Namespace`, and an opaque payload identity. -/
structure KubeObject where
  kind : Kind
  name : String
  ns : String
  payload : Nat
deriving DecidableEq, Repr

/-- The result of `scheme.Codecs.UniversalDeserializer().Decode` followed
by the type switch: a recognized typed object, an object of a kind outside
the five dispatched ones (the switch's `default` arm), or a decode
error. -/
inductive DecodeResult where
  | ok (o : KubeObject)
  | unsupported
  | decodeError (e : GoError)
deriving DecidableEq, Repr

/-- The control plane's scripted behavior for one already-split,
already-rendered sub-document: its decode result, the `Get` response of
the existence probe, the error results of the update and create calls,
and — for a Deployment — the settlement watcher's watch-open result,
point-read response and select schedule. -/
structure DocOracle where
  decode : DecodeResult
  getResp : GetResult
  updateErr : Option GoError
  createErr : Option GoError
  watchOpenErr : Option GoError
  watchGetResp : Except GoError Int
  watchSchedule : List LoopInput
deriving Repr

/-- `KubeConfig` (plugin.go lines 23-29). -/
structure KubeConfig where
  Ca : String
  Server : String
  Token : String
  Namespace : String
  InsecureSkipTLSVerify : Bool
deriving DecidableEq, Repr

/-- `Plugin` (plugin.go lines 31-34). -/
structure Plugin where
  Template : String
  KubeConfig : KubeConfig
deriving DecidableEq, Repr

/-- An error `handleYamlConfig` can return: a Go error from decode or a
control-plane call, the unsupported-kind error of the switch's `default`
arm, or a settlement-watcher error. -/
inductive RunError where
  | goErr (e : GoError)
  | unsupportedKind
  | watch (e : WatchError)
deriving DecidableEq, Repr

/-- How one `handleYamlConfig` call ends: a normal return with an optional
error, a crash of the settlement watcher's unchecked type assertion, or
(a finite-schedule artifact) the watcher still observing. -/
inductive HandleExit where
  | done (err : Option RunError)
  | crashed
  | stuck
deriving DecidableEq, Repr

/-- The result of `handleYamlConfig` (or of the apply loop): its exit and
the reconciler invocations issued, in order, each recording the kind, the
namespace argument passed to the reconciler, and the object name. -/
structure ReconcileInvocation where
  kind : Kind
  ns : String
  name : String
deriving DecidableEq, Repr

/-- Exit plus ordered reconciler-invocation trace. -/
structure HandleResult where
  exit : HandleExit
  invocations : List ReconcileInvocation
deriving DecidableEq, Repr

/-- `handleYamlConfig` (plugin.go lines 105-164). Go declares it with a
value receiver (`func (p Plugin) handleYamlConfig`), so the namespace
fallback `p.KubeConfig.Namespace = o.Namespace` in each switch arm writes
to this call's own copy of the plugin struct; here that copy is the local
shadowing `q`, and it never escapes the call. For a Deployment the call
reconciles and then runs `waitUntilDeploymentSettled` with the hardcoded
timeout 120, returning the watcher's error. -/
def handleYamlConfig (p : Plugin) (doc : DocOracle) : HandleResult :=
  match doc.decode with
  | DecodeResult.decodeError e => ⟨HandleExit.done (some (RunError.goErr e)), []⟩
  | DecodeResult.unsupported => ⟨HandleExit.done (some RunError.unsupportedKind), []⟩
  | DecodeResult.ok o =>
    match o.kind with
    | Kind.deployment =>
      let q := if p.KubeConfig.Namespace = "" then
          { p with KubeConfig := { p.KubeConfig with Namespace := o.ns } } else p
      let r := CreateOrUpdateDeployment doc.getResp doc.updateErr doc.createErr
          ⟨o.name, o.payload⟩
      let exitR :=
        match r.err with
        | some e => HandleExit.done (some (RunError.goErr e))
        | none =>
          match (waitUntilDeploymentSettled 120 doc.watchOpenErr doc.watchGetResp
              doc.watchSchedule).exit with
          | WatchExit.ret _ werr => HandleExit.done (werr.map RunError.watch)
          | WatchExit.panicked => HandleExit.crashed
          | WatchExit.observing => HandleExit.stuck
      ⟨exitR, [⟨Kind.deployment, q.KubeConfig.Namespace, o.name⟩]⟩
    | Kind.configMap =>
      let q := if p.KubeConfig.Namespace = "" then
          { p with KubeConfig := { p.KubeConfig with Namespace := o.ns } } else p
      let r := ApplyConfigMap doc.getResp doc.updateErr doc.createErr ⟨o.name, o.payload⟩
      ⟨HandleExit.done (r.err.map RunError.goErr),
        [⟨Kind.configMap, q.KubeConfig.Namespace, o.name⟩]⟩
    | Kind.service =>
      let q := if p.KubeConfig.Namespace = "" then
          { p with KubeConfig := { p.KubeConfig with Namespace := o.ns } } else p
      let r := ApplyService doc.getResp doc.updateErr doc.createErr ⟨o.name, o.payload⟩
      ⟨HandleExit.done (r.err.map RunError.goErr),
        [⟨Kind.service, q.KubeConfig.Namespace, o.name⟩]⟩
    | Kind.ingress =>
      let q := if p.KubeConfig.Namespace = "" then
          { p with KubeConfig := { p.KubeConfig with Namespace := o.ns } } else p
      let r := ApplyIngress doc.getResp doc.updateErr doc.createErr ⟨o.name, o.payload⟩
      ⟨HandleExit.done (r.err.map RunError.goErr),
        [⟨Kind.ingress, q.KubeConfig.Namespace, o.name⟩]⟩
    | Kind.cronJob =>
      let q := if p.KubeConfig.Namespace = "" then
          { p with KubeConfig := { p.KubeConfig with Namespace := o.ns } } else p
      let r := ApplyCronJob doc.getResp doc.updateErr doc.createErr ⟨o.name, o.payload⟩
      ⟨HandleExit.done (r.err.map RunError.goErr),
        [⟨Kind.cronJob, q.KubeConfig.Namespace, o.name⟩]⟩

/-- The apply loop of `Exec` (plugin.go lines 89-102) over the
already-split, already-trimmed, nonempty sub-documents, in document
order: call `handleYamlConfig` on each and return on the first error.
`Exec` has a value receiver and passes its own unchanged `p` to every
iteration, so each call receives the same plugin value. -/
def execApplyLoop (p : Plugin) (docs : List DocOracle) : HandleResult :=
  match docs with
  | [] => ⟨HandleExit.done none, []⟩
  | d :: rest =>
    let r := handleYamlConfig p d
    match r.exit with
    | HandleExit.done none =>
      let t := execApplyLoop p rest
      ⟨t.exit, r.invocations ++ t.invocations⟩
    | e => ⟨e, r.invocations⟩

/-- C8: sub-documents are handled strictly sequentially in document
order, and the first failing sub-document aborts the run with its error:
when every document of `pre` succeeds and `bad` fails with error `e`, the
run over `pre ++ bad :: rest` exits with `e`, and the reconciler
invocations issued are exactly those of `pre` in order followed by those
of `bad` — none for any document after the failing one. -/
theorem C8_first_error_aborts (p : Plugin) (pre : List DocOracle) (bad : DocOracle)
    (rest : List DocOracle) (e : RunError)
    (hpre : ∀ d ∈ pre, (handleYamlConfig p d).exit = HandleExit.done none)
    (hbad : (handleYamlConfig p bad).exit = HandleExit.done (some e)) :
    (execApplyLoop p (pre ++ bad :: rest)).exit = HandleExit.done (some e)
    ∧ (execApplyLoop p (pre ++ bad :: rest)).invocations
      = (pre.map fun d => (handleYamlConfig p d).invocations).flatten
        ++ (handleYamlConfig p bad).invocations := by
  induction pre with
  | nil =>
    constructor
    · simp [execApplyLoop, hbad]
    · simp [execApplyLoop, hbad]
  | cons d ds ih =>
    have hd : (handleYamlConfig p d).exit = HandleExit.done none :=
      hpre d (List.mem_cons_self d ds)
    have hds : ∀ x ∈ ds, (handleYamlConfig p x).exit = HandleExit.done none :=
      fun x hx => hpre x (List.mem_cons_of_mem d hx)
    obtain ⟨ih1, ih2⟩ := ih hds
    constructor
    · simpa [execApplyLoop, hd] using ih1
    · simp only [List.cons_append, execApplyLoop, hd, List.append_eq]
      simp only [List.map_cons, List.flatten_cons]
      rw [List.append_assoc, ← ih2]

/-- A plugin whose caller supplied no namespace override. -/
def emptyNsPlugin : Plugin :=
  ⟨"template.yaml", ⟨"ca-pem", "https://kube.example", "bearer", "", false⟩⟩

/-- A ConfigMap sub-document declaring namespace "alpha", absent from the
control plane, whose create succeeds. -/
def nsDocAlpha : DocOracle :=
  ⟨DecodeResult.ok ⟨Kind.configMap, "cm1", "alpha", 0⟩, notFoundResp, none, none,
    none, Except.ok 0, []⟩

/-- A ConfigMap sub-document declaring namespace "beta", absent from the
control plane, whose create succeeds. -/
def nsDocBeta : DocOracle :=
  ⟨DecodeResult.ok ⟨Kind.configMap, "cm2", "beta", 0⟩, notFoundResp, none, none,
    none, Except.ok 0, []⟩

/-- A sub-document that fails to decode. -/
def badDecodeDoc : DocOracle :=
  ⟨DecodeResult.decodeError (GoError.otherErr 7), notFoundResp, none, none,
    none, Except.ok 0, []⟩

/-- Witness for C8: one succeeding document, then a document whose decode
fails, then one more document; the run aborts with the decode error and
issues no invocation for the final document. -/
theorem C8_first_error_aborts_witness :
    (execApplyLoop emptyNsPlugin ([nsDocAlpha] ++ badDecodeDoc :: [nsDocBeta])).exit
      = HandleExit.done (some (RunError.goErr (GoError.otherErr 7)))
    ∧ (execApplyLoop emptyNsPlugin ([nsDocAlpha] ++ badDecodeDoc :: [nsDocBeta])).invocations
      = ([nsDocAlpha].map fun d => (handleYamlConfig emptyNsPlugin d).invocations).flatten
        ++ (handleYamlConfig emptyNsPlugin badDecodeDoc).invocations :=
  C8_first_error_aborts emptyNsPlugin [nsDocAlpha] badDecodeDoc [nsDocBeta]
    (RunError.goErr (GoError.otherErr 7)) (by decide) rfl

/-- C9 counterexample: with no caller namespace override, a two-document
run whose first document declares namespace "alpha" and whose second
declares "beta" reconciles the second document in "beta" — the first
document's namespace did not become the effective default for the second,
because the fallback assignment lands on the value receiver's per-call
copy of the plugin struct. -/
theorem C9_no_leak_counterexample :
    (execApplyLoop emptyNsPlugin [nsDocAlpha, nsDocBeta]).invocations
      = [⟨Kind.configMap, "alpha", "cm1"⟩, ⟨Kind.configMap, "beta", "cm2"⟩]
    ∧ ("beta" : String) ≠ "alpha" :=
  ⟨rfl, by decide⟩

/-- Every reconciler invocation `handleYamlConfig` issues when the caller
supplied no namespace override carries the document's own declared
namespace and name. -/
theorem handleYamlConfig_own_namespace (p : Plugin) (h : p.KubeConfig.Namespace = "")
    (d : DocOracle) (inv : ReconcileInvocation)
    (hinv : inv ∈ (handleYamlConfig p d).invocations) :
    ∃ o, d.decode = DecodeResult.ok o ∧ inv = ⟨o.kind, o.ns, o.name⟩ := by
  obtain ⟨dec, g, ue, ce, wo, wg, ws⟩ := d
  cases dec with
  | decodeError e => simp [handleYamlConfig] at hinv
  | unsupported => simp [handleYamlConfig] at hinv
  | ok o =>
    refine ⟨o, rfl, ?_⟩
    obtain ⟨k, nm, ns, pl⟩ := o
    cases k <;>
      simp only [handleYamlConfig, h, if_pos rfl, List.mem_singleton] at hinv <;>
      exact hinv

/-- C9 amended: the namespace fallback writes to the per-call copy of the
plugin struct, so with no caller namespace override every reconciler
invocation of a run — whatever the earlier documents were — uses its own
document's declared namespace; nothing leaks from the first document to
later ones. -/
theorem C9_per_document_namespace (p : Plugin) (h : p.KubeConfig.Namespace = "")
    (docs : List DocOracle) (inv : ReconcileInvocation)
    (hinv : inv ∈ (execApplyLoop p docs).invocations) :
    ∃ d ∈ docs, ∃ o, d.decode = DecodeResult.ok o ∧ inv = ⟨o.kind, o.ns, o.name⟩ := by
  induction docs with
  | nil => simp [execApplyLoop] at hinv
  | cons d rest ih =>
    cases he : (handleYamlConfig p d).exit with
    | done err =>
      cases err with
      | none =>
        simp only [execApplyLoop, he] at hinv
        rcases List.mem_append.mp hinv with hl | hr
        · obtain ⟨o, ho, hio⟩ := handleYamlConfig_own_namespace p h d inv hl
          exact ⟨d, List.mem_cons_self d rest, o, ho, hio⟩
        · obtain ⟨d2, hd2, o, ho, hio⟩ := ih hr
          exact ⟨d2, List.mem_cons_of_mem d hd2, o, ho, hio⟩
      | some e =>
        simp only [execApplyLoop, he] at hinv
        obtain ⟨o, ho, hio⟩ := handleYamlConfig_own_namespace p h d inv hinv
        exact ⟨d, List.mem_cons_self d rest, o, ho, hio⟩
    | crashed =>
      simp only [execApplyLoop, he] at hinv
      obtain ⟨o, ho, hio⟩ := handleYamlConfig_own_namespace p h d inv hinv
      exact ⟨d, List.mem_cons_self d rest, o, ho, hio⟩
    | stuck =>
      simp only [execApplyLoop, he] at hinv
      obtain ⟨o, ho, hio⟩ := handleYamlConfig_own_namespace p h d inv hinv
      exact ⟨d, List.mem_cons_self d rest, o, ho, hio⟩

/-- Witness for C9's amended theorem: the single invocation of a
one-document run carries that document's declared namespace "beta". -/
theorem C9_per_document_namespace_witness :
    ∃ d ∈ [nsDocBeta], ∃ o, d.decode = DecodeResult.ok o
      ∧ (⟨Kind.configMap, "beta", "cm2"⟩ : ReconcileInvocation) = ⟨o.kind, o.ns, o.name⟩ :=
  C9_per_document_namespace emptyNsPlugin rfl [nsDocBeta]
    ⟨Kind.configMap, "beta", "cm2"⟩ (by decide)
